import Mathlib

/-!
Shallow embedding of the recws reconnecting-websocket client
(src/recws.go) and proofs of the specification claims.

The Go code is a wrapper around an external transport library
(gorilla/websocket) and an external backoff library (jpillora/backoff).
Transport calls (dial, read, write, write-control) are modelled as
environment-supplied outcomes; the RecConn state record and every
state-mutating operation are translated line by line from src/recws.go.
Durations are Go `time.Duration` values, i.e. signed 64-bit nanosecond
counts, modelled as `Int`; float64 arithmetic in the backoff library is
modelled over `ℚ` with the float-to-int64 conversion as integer floor.
-/

namespace Recws

/-- Abstract handle for a live `*websocket.Conn` transport object. -/
structure Conn where
  id : Nat
  deriving DecidableEq, Repr

/-- Go `error` values that the facade distinguishes.  `closeError c`
models a `*websocket.CloseError` carrying status code `c`;
`errCloseSent` models `websocket.ErrCloseSent`; `other` is any other
non-nil error. -/
inductive GoError where
  | errNotConnected
  | errCloseSent
  | closeError (code : Nat)
  | other (tag : Nat)
  deriving DecidableEq, Repr

/-- websocket.CloseNormalClosure status code. -/
def closeNormalClosure : Nat := 1000

/-- websocket.CloseMessage frame type. -/
def closeMessage : Nat := 8

/-- websocket.PingMessage frame type. -/
def pingMessage : Nat := 9

/-- `websocket.IsCloseError(err, code)` on an `error` that may be nil:
true exactly when the error is a `*websocket.CloseError` whose status
code equals `code`. -/
def isCloseError (e : Option GoError) (code : Nat) : Bool :=
  match e with
  | some (GoError.closeError c) => c == code
  | _ => false

/-- One nanosecond-denominated second (`time.Second`). -/
def second : Int := 1000000000

/-- `time.Millisecond`. -/
def millisecond : Int := 1000000

/-- The mutable `RecConn` record of src/recws.go.  Pointer-valued Go
fields use `Option`: `conn` is the embedded `*websocket.Conn` (nil when
none), `httpResp` an abstract handle for `*http.Response`,
`keepAliveDone` the identity of the current `chan struct\x7b\x7d` (nil
before the first watchdog).  `hasDisconnect` records whether
`DisconnectHandler != nil`. -/
structure RecConn where
  recIntvlMin : Int
  recIntvlMax : Int
  recIntvlFactor : ℚ
  handshakeTimeout : Int
  keepAliveTimeout : Int
  hasDisconnect : Bool
  conn : Option Conn
  isConnected : Bool
  isReconnecting : Bool
  url : String
  dialErr : Option GoError
  httpResp : Option Nat
  keepAliveDone : Option Nat
  deriving DecidableEq, Repr

/-- Observable actions performed by the operations: transport-level
effects, goroutine scheduling, watchdog cancellation signals, handler
invocations, and the fatal exit of `log.Fatalf`. -/
inductive Event where
  | installTransport (c : Option Conn)
  | closeTransport (c : Conn)
  | disconnectHandler
  | scheduleConnect
  | signalKeepAliveDone (ch : Nat)
  | startWatchdog (ch : Nat)
  | writeControl (msgType code : Nat) (deadline : Int)
  | transportRead
  | transportWrite
  | fatal
  deriving DecidableEq, Repr

/-- `setIsConnected` (src/recws.go:84). -/
def setIsConnected (rc : RecConn) (state : Bool) : RecConn :=
  { rc with isConnected := state }

/-- `setIsReconnecting` (src/recws.go:563). -/
def setIsReconnecting (rc : RecConn) (b : Bool) : RecConn :=
  { rc with isReconnecting := b }

/-- `getConn` (src/recws.go:91). -/
def getConn (rc : RecConn) : Option Conn :=
  rc.conn

/-- `IsConnected` (src/recws.go:556). -/
def IsConnected (rc : RecConn) : Bool :=
  rc.isConnected

/-- `IsReconnecting` (src/recws.go:571). -/
def IsReconnecting (rc : RecConn) : Bool :=
  rc.isReconnecting

/-- `GetDialError` (src/recws.go:548). -/
def GetDialError (rc : RecConn) : Option GoError :=
  rc.dialErr

/-- `GetHTTPResponse` (src/recws.go:539). -/
def GetHTTPResponse (rc : RecConn) : Option Nat :=
  rc.httpResp

/-- `Close` (src/recws.go:100): closes the transport when non-nil
(the handle itself is not reset to nil), flips `isConnected` to false,
and fires the disconnect handler when one is set. -/
def Close (rc : RecConn) : RecConn × List Event :=
  let evs1 : List Event :=
    match getConn rc with
    | some c => [Event.closeTransport c]
    | none => []
  let rc1 := setIsConnected rc false
  let evs2 : List Event :=
    if rc1.hasDisconnect then [Event.disconnectHandler] else []
  (rc1, evs1 ++ evs2)

/-- `CloseAndReconnect` (src/recws.go:73): no-op while
`isReconnecting`; otherwise sets the flag, runs `Close`, then schedules
`go rc.connect()`. -/
def CloseAndReconnect (rc : RecConn) : RecConn × List Event :=
  if IsReconnecting rc then (rc, [])
  else
    let rc1 := setIsReconnecting rc true
    let p := Close rc1
    (p.1, p.2 ++ [Event.scheduleConnect])

/-- `Shutdown` (src/recws.go:116): writes a CloseNormalClosure control
frame with deadline `now + writeWait`; the write outcome `wcErr` comes
from the transport.  Falls back to `Close` exactly when the write
failed with an error other than `websocket.ErrCloseSent`. -/
def Shutdown (rc : RecConn) (now writeWait : Int) (wcErr : Option GoError) :
    RecConn × List Event :=
  let ev := Event.writeControl closeMessage closeNormalClosure (now + writeWait)
  match wcErr with
  | none => (rc, [ev])
  | some e =>
    if e = GoError.errCloseSent then (rc, [ev])
    else
      let p := Close rc
      (p.1, ev :: p.2)

/-- Outcome of `rc.Conn.ReadMessage()` supplied by the transport. -/
structure ReadResult where
  messageType : Int
  message : List Nat
  err : Option GoError
  deriving DecidableEq, Repr

/-- `ReadMessage` (src/recws.go:130): ErrNotConnected fast-fail when
disconnected; graceful CloseNormalClosure handled by `Close` with a nil
error surfaced; any other transport error triggers `CloseAndReconnect`
and is returned unchanged. -/
def ReadMessage (rc : RecConn) (tr : ReadResult) :
    RecConn × (Int × List Nat × Option GoError) × List Event :=
  if IsConnected rc then
    if isCloseError tr.err closeNormalClosure then
      let p := Close rc
      (p.1, (tr.messageType, tr.message, none), Event.transportRead :: p.2)
    else
      match tr.err with
      | some e =>
        let p := CloseAndReconnect rc
        (p.1, (tr.messageType, tr.message, some e), Event.transportRead :: p.2)
      | none =>
        (rc, (tr.messageType, tr.message, none), [Event.transportRead])
  else
    (rc, (0, [], some GoError.errNotConnected), [])

/-- `WriteMessage` (src/recws.go:150), with the transport's write
outcome supplied as `trErr`. -/
def WriteMessage (rc : RecConn) (trErr : Option GoError) :
    RecConn × Option GoError × List Event :=
  if IsConnected rc then
    if isCloseError trErr closeNormalClosure then
      let p := Close rc
      (p.1, none, Event.transportWrite :: p.2)
    else
      match trErr with
      | some e =>
        let p := CloseAndReconnect rc
        (p.1, some e, Event.transportWrite :: p.2)
      | none =>
        (rc, none, [Event.transportWrite])
  else
    (rc, some GoError.errNotConnected, [])

/-- `WriteJSON` (src/recws.go:174): identical control flow to
`WriteMessage` after the opaque JSON encoding. -/
def WriteJSON (rc : RecConn) (trErr : Option GoError) :
    RecConn × Option GoError × List Event :=
  if IsConnected rc then
    if isCloseError trErr closeNormalClosure then
      let p := Close rc
      (p.1, none, Event.transportWrite :: p.2)
    else
      match trErr with
      | some e =>
        let p := CloseAndReconnect rc
        (p.1, some e, Event.transportWrite :: p.2)
      | none =>
        (rc, none, [Event.transportWrite])
  else
    (rc, some GoError.errNotConnected, [])

/-- `ReadJSON` (src/recws.go:199): identical control flow to
`ReadMessage` with only the error surfaced. -/
def ReadJSON (rc : RecConn) (trErr : Option GoError) :
    RecConn × Option GoError × List Event :=
  if IsConnected rc then
    if isCloseError trErr closeNormalClosure then
      let p := Close rc
      (p.1, none, Event.transportRead :: p.2)
    else
      match trErr with
      | some e =>
        let p := CloseAndReconnect rc
        (p.1, some e, Event.transportRead :: p.2)
      | none =>
        (rc, none, [Event.transportRead])
  else
    (rc, some GoError.errNotConnected, [])

/-- Result of Go stdlib `url.Parse` as far as recws inspects it:
`scheme` is `u.Scheme` and `hasUser` is `u.User != nil`.  The parse
itself is an external-library outcome supplied to `parseURL`. -/
structure URL where
  scheme : String
  hasUser : Bool
  deriving DecidableEq, Repr

/-- `parseURL` (src/recws.go:230): rejects the empty string, parse
failures (`parsed = none`), schemes other than ws and wss, and URLs
carrying userinfo; otherwise returns the input string unchanged. -/
def parseURL (urlStr : String) (parsed : Option URL) : Except String String :=
  if urlStr = "" then Except.error "dial: url cannot be empty"
  else
    match parsed with
    | none => Except.error "url: parse failed"
    | some u =>
      if u.scheme ≠ "ws" ∧ u.scheme ≠ "wss" then
        Except.error "url: websocket uris must start with ws or wss scheme"
      else if u.hasUser then
        Except.error "url: user name and password are not allowed in websocket URIs"
      else
        Except.ok urlStr

/-- `setURL` (src/recws.go:215). -/
def setURL (rc : RecConn) (u : String) : RecConn :=
  { rc with url := u }

/-- `setDefaultRecIntvlMin` (src/recws.go:252). -/
def setDefaultRecIntvlMin (rc : RecConn) : RecConn :=
  if rc.recIntvlMin ≤ 0 then { rc with recIntvlMin := 2 * second } else rc

/-- `setDefaultRecIntvlMax` (src/recws.go:261). -/
def setDefaultRecIntvlMax (rc : RecConn) : RecConn :=
  if rc.recIntvlMax ≤ 0 then { rc with recIntvlMax := 30 * second } else rc

/-- `setDefaultRecIntvlFactor` (src/recws.go:270). -/
def setDefaultRecIntvlFactor (rc : RecConn) : RecConn :=
  if rc.recIntvlFactor ≤ 0 then { rc with recIntvlFactor := 3 / 2 } else rc

/-- `setDefaultHandshakeTimeout` (src/recws.go:279). -/
def setDefaultHandshakeTimeout (rc : RecConn) : RecConn :=
  if rc.handshakeTimeout ≤ 0 then { rc with handshakeTimeout := 2 * second } else rc

/-- `Dial` (src/recws.go:334): validates the URL; a validation error is
`log.Fatalf`, which terminates the process before the `go rc.connect()`
goroutine is scheduled.  On acceptance the configuration defaults are
applied and the connect loop is scheduled. -/
def Dial (rc : RecConn) (urlStr : String) (parsed : Option URL) :
    RecConn × List Event :=
  match parseURL urlStr parsed with
  | Except.error _ => (rc, [Event.fatal])
  | Except.ok u =>
    let rc1 := setURL rc u
    let rc2 := setDefaultRecIntvlMin rc1
    let rc3 := setDefaultRecIntvlMax rc2
    let rc4 := setDefaultRecIntvlFactor rc3
    let rc5 := setDefaultHandshakeTimeout rc4
    (rc5, [Event.scheduleConnect])

/-- The jpillora/backoff `Backoff` record as constructed by recws:
`attempt` is the private attempt counter (Go zero value 0). -/
structure Backoff where
  attempt : Nat
  Min : Int
  Max : Int
  Factor : ℚ
  Jitter : Bool
  deriving DecidableEq, Repr

/-- `getBackoff` (src/recws.go:373): a fresh jittered backoff built
from the reconnect-interval configuration; the attempt counter is the
Go zero value. -/
def getBackoff (rc : RecConn) : Backoff :=
  { attempt := 0
    Min := rc.recIntvlMin
    Max := rc.recIntvlMax
    Factor := rc.recIntvlFactor
    Jitter := true }

/-- `float64(math.MaxInt64 - 512)`, the overflow guard of
jpillora/backoff. -/
def maxInt64f : ℚ := ((2 : Int) ^ 63 - 1 - 512 : Int)

/-- jpillora/backoff `Backoff.ForAttempt`: float64 arithmetic over ℚ,
the uniform sample `rand.Float64()` passed in as `r`, and the
float64-to-int64 `time.Duration` conversion as floor (the value
converted is positive whenever `0 ≤ r`). -/
def ForAttempt (b : Backoff) (attempt : Nat) (r : ℚ) : Int :=
  let min : Int := if b.Min ≤ 0 then 100 * millisecond else b.Min
  let max : Int := if b.Max ≤ 0 then 10 * second else b.Max
  if min ≥ max then max
  else
    let factor : ℚ := if b.Factor ≤ 0 then 2 else b.Factor
    let minf : ℚ := (min : ℚ)
    let durf0 : ℚ := minf * factor ^ attempt
    let durf : ℚ := if b.Jitter then r * (durf0 - minf) + minf else durf0
    if durf > maxInt64f then max
    else
      let dur : Int := ⌊durf⌋
      if dur < min then min
      else if dur > max then max
      else dur

/-- jpillora/backoff `Backoff.Duration`: returns `ForAttempt` at the
current counter and increments the counter. -/
def Duration (b : Backoff) (r : ℚ) : Int × Backoff :=
  (ForAttempt b b.attempt r, { b with attempt := b.attempt + 1 })

/-- Outcome of `rc.dialer.Dial(url, header)`.  Per the gorilla
contract the connection handle is non-nil exactly on a nil error. -/
inductive DialResult where
  | success (c : Conn) (resp : Option Nat)
  | failure (e : GoError) (resp : Option Nat)
  deriving DecidableEq, Repr

/-- The `*websocket.Conn` component of a dial outcome. -/
def DialResult.conn : DialResult → Option Conn
  | DialResult.success c _ => some c
  | DialResult.failure _ _ => none

/-- The `error` component of a dial outcome. -/
def DialResult.err : DialResult → Option GoError
  | DialResult.success _ _ => none
  | DialResult.failure e _ => some e

/-- The `*http.Response` component of a dial outcome. -/
def DialResult.resp : DialResult → Option Nat
  | DialResult.success _ r => r
  | DialResult.failure _ r => r

/-- The locked install section of `connect` (src/recws.go:498-503):
one critical section writing `Conn`, `dialErr`,
`isConnected = (err == nil)` and `httpResp`. -/
def connectInstall (rc : RecConn) (d : DialResult) : RecConn :=
  { rc with
    conn := d.conn
    dialErr := d.err
    isConnected := (d.err).isNone
    httpResp := d.resp }

/-- `resetKeepAliveDone` (src/recws.go:413): closes (signals) the
previous watchdog's channel when one exists and installs a fresh
channel identity supplied by the runtime. -/
def resetKeepAliveDone (rc : RecConn) (fresh : Nat) : RecConn × List Event :=
  let evs : List Event :=
    match rc.keepAliveDone with
    | some ch => [Event.signalKeepAliveDone ch]
    | none => []
  ({ rc with keepAliveDone := some fresh }, evs)

/-- `keepAlive` (src/recws.go:433), up to the launch of the watchdog
goroutine: resets the done channel (signalling the previous watchdog)
and then starts the new watchdog goroutine on the fresh channel. -/
def keepAlive (rc : RecConn) (fresh : Nat) : RecConn × List Event :=
  let p := resetKeepAliveDone rc fresh
  (p.1, p.2 ++ [Event.startWatchdog fresh])

/-- One failing iteration of the `connect` loop (src/recws.go:494-533):
the locked install records the error and response and leaves the state
disconnected; the loop then sleeps and retries. -/
def connectFailStep (rc : RecConn) (e : GoError) (resp : Option Nat) : RecConn :=
  connectInstall rc (DialResult.failure e resp)

/-- The successful iteration of the `connect` loop
(src/recws.go:498-524): locked install of the new transport, then
(after the subscribe handler) `setIsReconnecting false` and, when
`KeepAliveTimeout > 0`, `keepAlive`.  `fresh` is the identity of the
new done channel. -/
def connectSuccessStep (rc : RecConn) (c : Conn) (resp : Option Nat)
    (fresh : Nat) : RecConn × List Event :=
  let rc1 := connectInstall rc (DialResult.success c resp)
  let rc2 := setIsReconnecting rc1 false
  if rc2.keepAliveTimeout > 0 then
    let p := keepAlive rc2 fresh
    (p.1, Event.installTransport (some c) :: p.2)
  else
    (rc2, [Event.installTransport (some c)])

/-- A full run of the `connect` loop: the listed dial failures in
order, then the final success.  Each iteration performs its locked
install; the failure installs carry a nil transport. -/
def connectRun (rc : RecConn) (fails : List (GoError × Option Nat))
    (c : Conn) (resp : Option Nat) (fresh : Nat) : RecConn × List Event :=
  match fails with
  | [] => connectSuccessStep rc c resp fresh
  | (e, hr) :: rest =>
    let rc1 := connectFailStep rc e hr
    let p := connectRun rc1 rest c resp fresh
    (p.1, Event.installTransport none :: p.2)

/-- Every state-mutating operation of the program, as it occurs in
src/recws.go, taken as one atomic transition (each runs under the
state's lock or is a lock-protected composite).  `setConnFalse` is the
program's only call of `setIsConnected` outside the install section,
namely `rc.setIsConnected(false)` inside `Close`. -/
inductive Step : RecConn → RecConn → Prop where
  | install (rc : RecConn) (d : DialResult) : Step rc (connectInstall rc d)
  | close (rc : RecConn) : Step rc (Close rc).1
  | setConnFalse (rc : RecConn) : Step rc (setIsConnected rc false)
  | setReconn (rc : RecConn) (b : Bool) : Step rc (setIsReconnecting rc b)
  | closeAndReconnect (rc : RecConn) : Step rc (CloseAndReconnect rc).1
  | shutdown (rc : RecConn) (now writeWait : Int) (wcErr : Option GoError) :
      Step rc (Shutdown rc now writeWait wcErr).1
  | read (rc : RecConn) (tr : ReadResult) : Step rc (ReadMessage rc tr).1
  | write (rc : RecConn) (e : Option GoError) : Step rc (WriteMessage rc e).1
  | writeJson (rc : RecConn) (e : Option GoError) : Step rc (WriteJSON rc e).1
  | readJson (rc : RecConn) (e : Option GoError) : Step rc (ReadJSON rc e).1
  | dial (rc : RecConn) (urlStr : String) (parsed : Option URL) :
      Step rc (Dial rc urlStr parsed).1
  | keepAliveStart (rc : RecConn) (fresh : Nat) : Step rc (keepAlive rc fresh).1
  | connSuccess (rc : RecConn) (c : Conn) (resp : Option Nat) (fresh : Nat) :
      Step rc (connectSuccessStep rc c resp fresh).1
  | connFail (rc : RecConn) (e : GoError) (resp : Option Nat) :
      Step rc (connectFailStep rc e resp)

/-- States reachable from `s0` through program operations. -/
inductive Reachable (s0 : RecConn) : RecConn → Prop where
  | refl : Reachable s0 s0
  | step {s s' : RecConn} : Reachable s0 s → Step s s' → Reachable s0 s'

/-- The connectivity invariant of the spec: a connected state holds a
non-nil transport and a nil last dial error. -/
def Inv (s : RecConn) : Prop :=
  s.isConnected = true → s.conn ≠ none ∧ s.dialErr = none

instance (s : RecConn) : Decidable (Inv s) := by
  unfold Inv; infer_instance

theorem Close_fst (rc : RecConn) : (Close rc).1 = setIsConnected rc false := rfl

theorem setIsConnected_false_not_connected (rc : RecConn) :
    (setIsConnected rc false).isConnected = false := rfl

theorem Inv_of_not_connected {s : RecConn} (h : s.isConnected = false) : Inv s := by
  intro hc
  rw [h] at hc
  exact absurd hc (by simp)

theorem Inv_setIsConnected_false (rc : RecConn) : Inv (setIsConnected rc false) :=
  Inv_of_not_connected rfl

theorem Inv_Close (rc : RecConn) : Inv (Close rc).1 := by
  rw [Close_fst]
  exact Inv_setIsConnected_false rc

theorem Inv_CloseAndReconnect {rc : RecConn} (h : Inv rc) :
    Inv (CloseAndReconnect rc).1 := by
  unfold CloseAndReconnect
  split
  · exact h
  · exact Inv_Close _

theorem Dial_fst_fields (rc : RecConn) (urlStr : String) (parsed : Option URL) :
    (Dial rc urlStr parsed).1.isConnected = rc.isConnected ∧
    (Dial rc urlStr parsed).1.conn = rc.conn ∧
    (Dial rc urlStr parsed).1.dialErr = rc.dialErr := by
  unfold Dial
  cases hq : parseURL urlStr parsed with
  | error e => exact ⟨rfl, rfl, rfl⟩
  | ok u =>
    simp only [setURL, setDefaultRecIntvlMin, setDefaultRecIntvlMax,
      setDefaultRecIntvlFactor, setDefaultHandshakeTimeout]
    split <;> split <;> split <;> split <;> exact ⟨rfl, rfl, rfl⟩

theorem Shutdown_fst (rc : RecConn) (now writeWait : Int) (wcErr : Option GoError) :
    (Shutdown rc now writeWait wcErr).1 =
      match wcErr with
      | none => rc
      | some e => if e = GoError.errCloseSent then rc else (Close rc).1 := by
  cases wcErr with
  | none => rfl
  | some e =>
    simp only [Shutdown]
    split <;> rfl

theorem ReadMessage_fst (rc : RecConn) (tr : ReadResult) :
    (ReadMessage rc tr).1 =
      if IsConnected rc then
        if isCloseError tr.err closeNormalClosure then (Close rc).1
        else
          match tr.err with
          | some _ => (CloseAndReconnect rc).1
          | none => rc
      else rc := by
  unfold ReadMessage
  split
  · split
    · rfl
    · cases tr.err <;> rfl
  · rfl

theorem WriteMessage_fst (rc : RecConn) (trErr : Option GoError) :
    (WriteMessage rc trErr).1 =
      if IsConnected rc then
        if isCloseError trErr closeNormalClosure then (Close rc).1
        else
          match trErr with
          | some _ => (CloseAndReconnect rc).1
          | none => rc
      else rc := by
  unfold WriteMessage
  split
  · split
    · rfl
    · cases trErr <;> rfl
  · rfl

theorem WriteJSON_fst (rc : RecConn) (trErr : Option GoError) :
    (WriteJSON rc trErr).1 = (WriteMessage rc trErr).1 := by
  unfold WriteJSON WriteMessage
  split
  · split
    · rfl
    · cases trErr <;> rfl
  · rfl

theorem ReadJSON_fst (rc : RecConn) (trErr : Option GoError) :
    (ReadJSON rc trErr).1 = (WriteMessage rc trErr).1 := by
  unfold ReadJSON WriteMessage
  split
  · split
    · rfl
    · cases trErr <;> rfl
  · rfl

theorem Inv_facade {rc s' : RecConn} {e : Option GoError}
    (hs : s' =
      if IsConnected rc then
        if isCloseError e closeNormalClosure then (Close rc).1
        else
          match e with
          | some _ => (CloseAndReconnect rc).1
          | none => rc
      else rc)
    (h : Inv rc) : Inv s' := by
  subst hs
  split
  · split
    · exact Inv_Close rc
    · cases e with
      | some e0 => exact Inv_CloseAndReconnect h
      | none => exact h
  · exact h

/-- Invariant preservation by every single program transition. -/
theorem Inv_step {s s' : RecConn} (hs : Step s s') (h : Inv s) : Inv s' := by
  cases hs with
  | install d =>
    cases d with
    | success c resp =>
      intro _
      exact ⟨by simp [connectInstall, DialResult.conn], by
        simp [connectInstall, DialResult.err]⟩
    | failure e resp =>
      exact Inv_of_not_connected (by simp [connectInstall, DialResult.err])
  | close => exact Inv_Close s
  | setConnFalse => exact Inv_setIsConnected_false s
  | setReconn b =>
    intro hc
    exact h hc
  | closeAndReconnect => exact Inv_CloseAndReconnect h
  | shutdown now writeWait wcErr =>
    rw [Shutdown_fst]
    cases wcErr with
    | none => exact h
    | some e =>
      show Inv (if e = GoError.errCloseSent then s else (Close s).1)
      by_cases he : e = GoError.errCloseSent
      · rw [if_pos he]
        exact h
      · rw [if_neg he]
        exact Inv_Close s
  | read tr => exact Inv_facade (ReadMessage_fst s tr) h
  | write e => exact Inv_facade (WriteMessage_fst s e) h
  | writeJson e =>
    exact Inv_facade ((WriteJSON_fst s e).trans (WriteMessage_fst s e)) h
  | readJson e =>
    exact Inv_facade ((ReadJSON_fst s e).trans (WriteMessage_fst s e)) h
  | dial urlStr parsed =>
    obtain ⟨h1, h2, h3⟩ := Dial_fst_fields s urlStr parsed
    intro hc
    rw [h1] at hc
    rw [h2, h3]
    exact h hc
  | keepAliveStart fresh =>
    intro hc
    exact h hc
  | connSuccess c resp fresh =>
    intro _
    by_cases hk : s.keepAliveTimeout > 0 <;>
      simp [connectSuccessStep, connectInstall, setIsReconnecting, keepAlive,
        resetKeepAliveDone, DialResult.conn, DialResult.err, DialResult.resp, hk]
  | connFail e resp =>
    exact Inv_of_not_connected (by simp [connectFailStep, connectInstall,
      DialResult.err])

/-- C1.  At every observable state of a RecConn — every state reachable
from a disconnected start through the program's state-mutating
operations (the connect install section, Close, setIsConnected as
called by the program, and every operation composed from them) —
`isConnected = true` implies the transport handle is non-nil and the
last dial error is nil. -/
theorem C1_state_invariant (s0 s : RecConn) (h0 : s0.isConnected = false)
    (hr : Reachable s0 s) : Inv s := by
  induction hr with
  | refl => exact Inv_of_not_connected h0
  | step _ hs ih => exact Inv_step hs ih

/-- A zero-value-style RecConn used to instantiate theorems. -/
def sampleRC : RecConn :=
  { recIntvlMin := 0
    recIntvlMax := 0
    recIntvlFactor := 0
    handshakeTimeout := 0
    keepAliveTimeout := 10 * second
    hasDisconnect := false
    conn := none
    isConnected := false
    isReconnecting := false
    url := ""
    dialErr := none
    httpResp := none
    keepAliveDone := none }

/-- C1 witness: the invariant, concretely, at the state reached by a
successful connect from the zero value. -/
theorem C1_state_invariant_witness :
    Inv (connectSuccessStep sampleRC ⟨0⟩ none 1).1 :=
  C1_state_invariant sampleRC _ rfl
    (Reachable.step Reachable.refl (Step.connSuccess sampleRC ⟨0⟩ none 1))

/-- C2.  CloseAndReconnect is idempotent and re-entrancy-guarded:
while `isReconnecting` is true a call is a no-op (state unchanged, no
events, no dial loop scheduled); from a non-reconnecting state two
calls in immediate succession schedule exactly one connect loop, and
the reconnecting flag is already true in the state produced by the
scheduling call. -/
theorem C2_close_and_reconnect_guard (rc : RecConn) :
    (rc.isReconnecting = true → CloseAndReconnect rc = (rc, [])) ∧
    (rc.isReconnecting = false →
      ((CloseAndReconnect rc).2 ++
          (CloseAndReconnect (CloseAndReconnect rc).1).2).count
        Event.scheduleConnect = 1 ∧
      (CloseAndReconnect rc).1.isReconnecting = true) := by
  constructor
  · intro h
    simp [CloseAndReconnect, IsReconnecting, h]
  · intro h
    cases hc : rc.conn <;> cases hd : rc.hasDisconnect <;>
      simp [CloseAndReconnect, IsReconnecting, Close, getConn, setIsConnected,
        setIsReconnecting, h, hc, hd, List.count_cons, List.count_append]

/-- C2 witness: the guard at a concrete already-reconnecting state and
the single scheduled loop for two successive calls from the concrete
idle state. -/
theorem C2_close_and_reconnect_guard_witness :
    CloseAndReconnect { sampleRC with isReconnecting := true } =
      ({ sampleRC with isReconnecting := true }, []) ∧
    ((CloseAndReconnect sampleRC).2 ++
        (CloseAndReconnect (CloseAndReconnect sampleRC).1).2).count
      Event.scheduleConnect = 1 :=
  ⟨(C2_close_and_reconnect_guard _).1 rfl,
   ((C2_close_and_reconnect_guard sampleRC).2 rfl).1⟩

/-- C4.  When `isConnected` is false every facade operation returns
ErrNotConnected at once: the state is unchanged and no transport
event occurs. -/
theorem C4_not_connected_fast_fail (rc : RecConn) (tr : ReadResult)
    (e : Option GoError) (h : rc.isConnected = false) :
    ReadMessage rc tr = (rc, (0, [], some GoError.errNotConnected), []) ∧
    WriteMessage rc e = (rc, some GoError.errNotConnected, []) ∧
    ReadJSON rc e = (rc, some GoError.errNotConnected, []) ∧
    WriteJSON rc e = (rc, some GoError.errNotConnected, []) := by
  simp [ReadMessage, WriteMessage, ReadJSON, WriteJSON, IsConnected, h]

/-- C4 witness: the fast-fail at the concrete zero-value state. -/
theorem C4_not_connected_fast_fail_witness :
    ReadMessage sampleRC ⟨1, [], none⟩ =
      (sampleRC, (0, [], some GoError.errNotConnected), []) ∧
    WriteMessage sampleRC none = (sampleRC, some GoError.errNotConnected, []) :=
  ⟨(C4_not_connected_fast_fail sampleRC ⟨1, [], none⟩ none rfl).1,
   (C4_not_connected_fast_fail sampleRC ⟨1, [], none⟩ none rfl).2.1⟩

/-- C5.  On a connected state: a CloseNormalClosure close error makes
every facade operation run `Close` (disconnected afterwards, no
scheduleConnect event, reconnecting flag untouched) and surface a nil
error; any other non-nil transport error makes it run
`CloseAndReconnect` and return the original error. -/
theorem C5_graceful_closure (rc : RecConn) (tr : ReadResult)
    (e : Option GoError) (h : rc.isConnected = true) :
    (isCloseError tr.err closeNormalClosure = true →
      ReadMessage rc tr = ((Close rc).1, (tr.messageType, tr.message, none),
        Event.transportRead :: (Close rc).2)) ∧
    (∀ e0, tr.err = some e0 → isCloseError tr.err closeNormalClosure = false →
      ReadMessage rc tr = ((CloseAndReconnect rc).1,
        (tr.messageType, tr.message, some e0),
        Event.transportRead :: (CloseAndReconnect rc).2)) ∧
    (isCloseError e closeNormalClosure = true →
      WriteMessage rc e = ((Close rc).1, none,
        Event.transportWrite :: (Close rc).2) ∧
      WriteJSON rc e = ((Close rc).1, none,
        Event.transportWrite :: (Close rc).2) ∧
      ReadJSON rc e = ((Close rc).1, none,
        Event.transportRead :: (Close rc).2)) ∧
    (∀ e0, e = some e0 → isCloseError e closeNormalClosure = false →
      WriteMessage rc e = ((CloseAndReconnect rc).1, some e0,
        Event.transportWrite :: (CloseAndReconnect rc).2) ∧
      WriteJSON rc e = ((CloseAndReconnect rc).1, some e0,
        Event.transportWrite :: (CloseAndReconnect rc).2) ∧
      ReadJSON rc e = ((CloseAndReconnect rc).1, some e0,
        Event.transportRead :: (CloseAndReconnect rc).2)) ∧
    (Close rc).1.isConnected = false ∧
    ((Close rc).2).count Event.scheduleConnect = 0 ∧
    (Close rc).1.isReconnecting = rc.isReconnecting := by
  refine ⟨?_, ?_, ?_, ?_, rfl, ?_, rfl⟩
  · intro hg
    simp [ReadMessage, IsConnected, h, hg]
  · intro e0 he hg
    rw [he] at hg
    simp [ReadMessage, IsConnected, h, hg, he]
  · intro hg
    refine ⟨?_, ?_, ?_⟩ <;>
      simp [WriteMessage, WriteJSON, ReadJSON, IsConnected, h, hg]
  · intro e0 he hg
    rw [he] at hg
    refine ⟨?_, ?_, ?_⟩ <;>
      simp [WriteMessage, WriteJSON, ReadJSON, IsConnected, h, hg, he]
  · cases hc : rc.conn <;> cases hd : rc.hasDisconnect <;>
      simp [Close, getConn, setIsConnected, hc, hd, List.count_cons]

/-- C5 witness: graceful closure and error propagation at a concrete
connected state. -/
theorem C5_graceful_closure_witness :
    ReadMessage { sampleRC with isConnected := true, conn := some ⟨0⟩ }
        ⟨2, [7], some (GoError.closeError 1000)⟩ =
      ((Close { sampleRC with isConnected := true, conn := some ⟨0⟩ }).1,
        (2, [7], none),
        Event.transportRead ::
          (Close { sampleRC with isConnected := true, conn := some ⟨0⟩ }).2) ∧
    WriteMessage { sampleRC with isConnected := true, conn := some ⟨0⟩ }
        (some (GoError.other 3)) =
      ((CloseAndReconnect
          { sampleRC with isConnected := true, conn := some ⟨0⟩ }).1,
        some (GoError.other 3),
        Event.transportWrite ::
          (CloseAndReconnect
            { sampleRC with isConnected := true, conn := some ⟨0⟩ }).2) :=
  ⟨(C5_graceful_closure _ ⟨2, [7], some (GoError.closeError 1000)⟩
      (some (GoError.other 3)) rfl).1 (by decide),
   ((C5_graceful_closure _ ⟨2, [7], some (GoError.closeError 1000)⟩
      (some (GoError.other 3)) rfl).2.2.2.1 (GoError.other 3) rfl (by decide)).1⟩

/-- C8.  The locked install section of the connect loop records the
dial error, the handshake response and the transport handle of the
attempt in one critical section and sets `isConnected` exactly when
the error is nil; `GetDialError` afterwards returns that error (nil on
success). -/
theorem C8_dial_attempt_side_effects (rc : RecConn) (d : DialResult) :
    (connectInstall rc d).dialErr = d.err ∧
    (connectInstall rc d).httpResp = d.resp ∧
    (connectInstall rc d).conn = d.conn ∧
    ((connectInstall rc d).isConnected = true ↔ d.err = none) ∧
    GetDialError (connectInstall rc d) = d.err := by
  refine ⟨rfl, rfl, rfl, ?_, rfl⟩
  cases d <;> simp [connectInstall, DialResult.err]

/-- Recognizer for `signalKeepAliveDone` events. -/
def isSignalDone : Event → Bool
  | Event.signalKeepAliveDone _ => true
  | _ => false

/-- Recognizer for `installTransport` events. -/
def isInstall : Event → Bool
  | Event.installTransport _ => true
  | _ => false

/-- Recognizer for `startWatchdog` events. -/
def isStart : Event → Bool
  | Event.startWatchdog _ => true
  | _ => false

/-- Every cancellation signal of a previous watchdog occurs at or
before every transport install in the trace. -/
def signalPrecedesInstall (l : List Event) : Prop :=
  ∀ i j : Fin l.length, isSignalDone (l.get i) = true →
    isInstall (l.get j) = true → (i : Nat) ≤ (j : Nat)

instance (l : List Event) : Decidable (signalPrecedesInstall l) := by
  unfold signalPrecedesInstall; infer_instance

/-- Every cancellation signal of a previous watchdog occurs strictly
before every start of a new watchdog goroutine in the trace. -/
def signalPrecedesStart (l : List Event) : Prop :=
  ∀ i j : Fin l.length, isSignalDone (l.get i) = true →
    isStart (l.get j) = true → (i : Nat) < (j : Nat)

instance (l : List Event) : Decidable (signalPrecedesStart l) := by
  unfold signalPrecedesStart; infer_instance

/-- C3 counterexample: from a state with an active previous watchdog
(channel 0) and keepalive enabled, the successful-connect trace is
install first, cancellation signal second, new-watchdog start third —
so the previous generation is NOT signal-terminated before or as part
of installing the new transport, refuting the claim as stated. -/
theorem C3_signal_after_install_cex :
    (connectSuccessStep { sampleRC with keepAliveDone := some 0 } ⟨0⟩ none 1).2 =
      [Event.installTransport (some ⟨0⟩), Event.signalKeepAliveDone 0,
        Event.startWatchdog 1] ∧
    ¬ signalPrecedesInstall
        (connectSuccessStep { sampleRC with keepAliveDone := some 0 }
          ⟨0⟩ none 1).2 := by
  constructor
  · rfl
  · intro hp
    exact absurd (hp ⟨1, by decide⟩ ⟨0, by decide⟩ rfl rfl) (by decide)

/-- C3 as amended: on every successful connect with keepalive enabled,
the trace installs the transport, then signals the previous
generation's watchdog channel when one exists, and only then starts
the single new watchdog goroutine — every cancellation signal strictly
precedes the start of the new watchdog. -/
theorem C3_generational_invalidation (rc : RecConn) (c : Conn)
    (resp : Option Nat) (fresh : Nat) (hk : rc.keepAliveTimeout > 0) :
    (∀ ch, rc.keepAliveDone = some ch →
      (connectSuccessStep rc c resp fresh).2 =
        [Event.installTransport (some c), Event.signalKeepAliveDone ch,
          Event.startWatchdog fresh]) ∧
    (rc.keepAliveDone = none →
      (connectSuccessStep rc c resp fresh).2 =
        [Event.installTransport (some c), Event.startWatchdog fresh]) ∧
    signalPrecedesStart (connectSuccessStep rc c resp fresh).2 ∧
    ((connectSuccessStep rc c resp fresh).2.countP
      (fun ev => isStart ev)) = 1 := by
  have hk2 : (setIsReconnecting
      (connectInstall rc (DialResult.success c resp)) false).keepAliveTimeout
        > 0 := hk
  cases hd : rc.keepAliveDone with
  | some ch =>
    have htr : (connectSuccessStep rc c resp fresh).2 =
        [Event.installTransport (some c), Event.signalKeepAliveDone ch,
          Event.startWatchdog fresh] := by
      simp [connectSuccessStep, keepAlive, resetKeepAliveDone, setIsReconnecting,
        connectInstall, hk, hd]
    refine ⟨fun ch0 h0 => ?_, fun h0 => ?_, ?_, ?_⟩
    · cases h0
      exact htr
    · cases h0
    · rw [htr]
      intro i j hi hj
      fin_cases i <;> fin_cases j <;>
        simp_all [isSignalDone, isStart]
    · rw [htr]
      simp [isStart]
  | none =>
    have htr : (connectSuccessStep rc c resp fresh).2 =
        [Event.installTransport (some c), Event.startWatchdog fresh] := by
      simp [connectSuccessStep, keepAlive, resetKeepAliveDone, setIsReconnecting,
        connectInstall, hk, hd]
    refine ⟨fun ch0 h0 => ?_, fun h0 => ?_, ?_, ?_⟩
    · cases h0
    · exact htr
    · rw [htr]
      intro i j hi hj
      fin_cases i <;> fin_cases j <;>
        simp_all [isSignalDone, isStart]
    · rw [htr]
      simp [isStart]

/-- C3 witness: the amended ordering at the concrete state of the
counterexample. -/
theorem C3_generational_invalidation_witness :
    (connectSuccessStep { sampleRC with keepAliveDone := some 0 } ⟨0⟩ none 1).2 =
      [Event.installTransport (some ⟨0⟩), Event.signalKeepAliveDone 0,
        Event.startWatchdog 1] ∧
    signalPrecedesStart
      (connectSuccessStep { sampleRC with keepAliveDone := some 0 }
        ⟨0⟩ none 1).2 :=
  ⟨(C3_generational_invalidation { sampleRC with keepAliveDone := some 0 }
      ⟨0⟩ none 1 (by decide)).1 0 rfl,
   (C3_generational_invalidation { sampleRC with keepAliveDone := some 0 }
      ⟨0⟩ none 1 (by decide)).2.2.1⟩

/-- C6.  The backoff used by the connect loop: `getBackoff` builds a
fresh jittered backoff whose attempt counter starts at 0 (one per loop
invocation, not shared), and for a positive configured floor below the
ceiling every returned wait duration lies within `[min, max]` — in
particular it is never below zero and never above `max` — for every
attempt number and every jitter sample. -/
theorem C6_backoff_bounds (rc : RecConn) (a : Nat) (r : ℚ)
    (hmin : 0 < rc.recIntvlMin) (hlt : rc.recIntvlMin < rc.recIntvlMax) :
    (getBackoff rc).attempt = 0 ∧
    rc.recIntvlMin ≤ ForAttempt (getBackoff rc) a r ∧
    ForAttempt (getBackoff rc) a r ≤ rc.recIntvlMax ∧
    0 ≤ ForAttempt (getBackoff rc) a r := by
  refine ⟨rfl, ?_⟩
  simp only [ForAttempt, getBackoff]
  rw [if_neg (not_le.mpr hmin), if_neg (not_le.mpr (lt_trans hmin hlt)),
    if_neg (not_le.mpr hlt)]
  split
  · omega
  · split <;> split <;> omega

/-- The RecConn configuration after `Dial` applies the documented
defaults: 2s floor, 30s ceiling, factor 1.5, 2s handshake timeout. -/
def defaultedRC : RecConn :=
  setDefaultHandshakeTimeout (setDefaultRecIntvlFactor
    (setDefaultRecIntvlMax (setDefaultRecIntvlMin sampleRC)))

/-- C6 witness: the bounds at the default configuration, attempt 3,
jitter sample one half. -/
theorem C6_backoff_bounds_witness :
    (getBackoff defaultedRC).attempt = 0 ∧
    defaultedRC.recIntvlMin ≤ ForAttempt (getBackoff defaultedRC) 3 (1 / 2) ∧
    ForAttempt (getBackoff defaultedRC) 3 (1 / 2) ≤ defaultedRC.recIntvlMax ∧
    0 ≤ ForAttempt (getBackoff defaultedRC) 3 (1 / 2) :=
  C6_backoff_bounds defaultedRC 3 (1 / 2) (by decide) (by decide)

/-- C7.  `parseURL` accepts exactly the non-empty URLs that parse with
scheme ws or wss and no embedded userinfo, returning the input string
unchanged; `Dial` on a rejected URL performs only the fatal exit (the
connect goroutine is never scheduled), and on an accepted URL schedules
the connect loop. -/
theorem C7_url_validation (rc : RecConn) (urlStr : String)
    (parsed : Option URL) :
    ((∃ s, parseURL urlStr parsed = Except.ok s) ↔
      (urlStr ≠ "" ∧ ∃ u, parsed = some u ∧
        (u.scheme = "ws" ∨ u.scheme = "wss") ∧ u.hasUser = false)) ∧
    (∀ s, parseURL urlStr parsed = Except.ok s → s = urlStr) ∧
    (∀ e, parseURL urlStr parsed = Except.error e →
      (Dial rc urlStr parsed).2 = [Event.fatal]) ∧
    (∀ s, parseURL urlStr parsed = Except.ok s →
      (Dial rc urlStr parsed).2 = [Event.scheduleConnect]) := by
  refine ⟨?_, ?_, ?_, ?_⟩
  · constructor
    · rintro ⟨s, hs⟩
      by_cases he : urlStr = ""
      · simp [parseURL, he] at hs
      · cases parsed with
        | none => simp [parseURL, he] at hs
        | some u =>
          refine ⟨he, u, rfl, ?_⟩
          by_cases h1 : u.scheme ≠ "ws" ∧ u.scheme ≠ "wss"
          · simp [parseURL, he, h1] at hs
          · by_cases h2 : u.hasUser = true
            · simp [parseURL, he, h1, h2] at hs
            · refine ⟨?_, by simpa using h2⟩
              rcases not_and_or.mp h1 with hw | hw
              · exact Or.inl (not_not.mp hw)
              · exact Or.inr (not_not.mp hw)
    · rintro ⟨he, u, hp, hsch, hu⟩
      subst hp
      refine ⟨urlStr, ?_⟩
      have h1 : ¬(u.scheme ≠ "ws" ∧ u.scheme ≠ "wss") := by
        rcases hsch with hw | hw <;> simp [hw]
      simp [parseURL, he, h1, hu]
  · intro s hs
    by_cases he : urlStr = ""
    · simp [parseURL, he] at hs
    · cases parsed with
      | none => simp [parseURL, he] at hs
      | some u =>
        by_cases h1 : u.scheme ≠ "ws" ∧ u.scheme ≠ "wss"
        · simp [parseURL, he, h1] at hs
        · by_cases h2 : u.hasUser = true
          · simp [parseURL, he, h1, h2] at hs
          · simp [parseURL, he, h1, h2] at hs
            exact hs.symm
  · intro e he
    unfold Dial
    rw [he]
  · intro s hs
    unfold Dial
    rw [hs]

/-- C7 witness: acceptance of a concrete wss URL with the resulting
scheduled connect, and the fatal rejection of an http URL. -/
theorem C7_url_validation_witness :
    (∀ s, parseURL "wss://host/socket" (some ⟨"wss", false⟩) = Except.ok s →
      s = "wss://host/socket") ∧
    (Dial sampleRC "wss://host/socket" (some ⟨"wss", false⟩)).2 =
      [Event.scheduleConnect] ∧
    (Dial sampleRC "http://host" (some ⟨"http", false⟩)).2 = [Event.fatal] :=
  ⟨(C7_url_validation sampleRC "wss://host/socket" (some ⟨"wss", false⟩)).2.1,
   (C7_url_validation sampleRC "wss://host/socket"
      (some ⟨"wss", false⟩)).2.2.2 "wss://host/socket" rfl,
   (C7_url_validation sampleRC "http://host" (some ⟨"http", false⟩)).2.2.1
      "url: websocket uris must start with ws or wss scheme" rfl⟩

/-- C9.  With `KeepAliveTimeout = 0`, no run of the connect loop —
any number of failed dial attempts followed by a success — ever emits
a watchdog start. -/
theorem C9_keepalive_disabled (rc : RecConn)
    (fails : List (GoError × Option Nat)) (c : Conn) (resp : Option Nat)
    (fresh : Nat) (h : rc.keepAliveTimeout = 0) :
    ∀ ch, Event.startWatchdog ch ∉ (connectRun rc fails c resp fresh).2 := by
  induction fails generalizing rc with
  | nil =>
    intro ch
    simp [connectRun, connectSuccessStep, setIsReconnecting, connectInstall, h]
  | cons f rest ih =>
    intro ch
    have hf : (connectFailStep rc f.1 f.2).keepAliveTimeout = 0 := h
    have hrec := ih (connectFailStep rc f.1 f.2) hf ch
    simp only [connectRun, List.mem_cons]
    rintro (hhead | htail)
    · cases hhead
    · exact hrec htail

/-- C9 witness: no watchdog start in a concrete run with one failure
then success, keepalive disabled. -/
theorem C9_keepalive_disabled_witness :
    Event.startWatchdog 1 ∉
      (connectRun { sampleRC with keepAliveTimeout := 0 }
        [(GoError.other 0, none)] ⟨0⟩ none 1).2 :=
  C9_keepalive_disabled { sampleRC with keepAliveTimeout := 0 }
    [(GoError.other 0, none)] ⟨0⟩ none 1 rfl 1

/-- C10.  Shutdown writes one CloseNormalClosure close frame with
deadline `now + writeWait`; when that write succeeds or fails with
ErrCloseSent the state is unchanged and nothing else happens (no local
transport close, no disconnect handler); it falls back to `Close`
exactly when the write fails with any other error. -/
theorem C10_shutdown_frame (rc : RecConn) (now writeWait : Int)
    (wcErr : Option GoError) :
    ((Shutdown rc now writeWait wcErr).2.head? =
      some (Event.writeControl closeMessage closeNormalClosure
        (now + writeWait))) ∧
    (wcErr = none → Shutdown rc now writeWait wcErr =
      (rc, [Event.writeControl closeMessage closeNormalClosure
        (now + writeWait)])) ∧
    (wcErr = some GoError.errCloseSent → Shutdown rc now writeWait wcErr =
      (rc, [Event.writeControl closeMessage closeNormalClosure
        (now + writeWait)])) ∧
    (∀ e, wcErr = some e → e ≠ GoError.errCloseSent →
      Shutdown rc now writeWait wcErr =
        ((Close rc).1, Event.writeControl closeMessage closeNormalClosure
          (now + writeWait) :: (Close rc).2)) := by
  refine ⟨?_, ?_, ?_, ?_⟩
  · cases wcErr with
    | none => rfl
    | some e =>
      by_cases he : e = GoError.errCloseSent <;>
        simp [Shutdown, he]
  · intro h
    subst h
    rfl
  · intro h
    subst h
    rfl
  · intro e he hne
    subst he
    simp [Shutdown, hne]

/-- C10 witness: successful close frame leaves a concrete connected
state untouched; a failing write falls back to Close. -/
theorem C10_shutdown_frame_witness :
    Shutdown { sampleRC with isConnected := true, conn := some ⟨0⟩ }
        0 second none =
      ({ sampleRC with isConnected := true, conn := some ⟨0⟩ },
        [Event.writeControl closeMessage closeNormalClosure (0 + second)]) ∧
    Shutdown { sampleRC with isConnected := true, conn := some ⟨0⟩ }
        0 second (some (GoError.other 5)) =
      ((Close { sampleRC with isConnected := true, conn := some ⟨0⟩ }).1,
        Event.writeControl closeMessage closeNormalClosure (0 + second) ::
          (Close { sampleRC with isConnected := true, conn := some ⟨0⟩ }).2) :=
  ⟨(C10_shutdown_frame _ 0 second none).2.1 rfl,
   (C10_shutdown_frame _ 0 second (some (GoError.other 5))).2.2.2
      (GoError.other 5) rfl (by decide)⟩

end Recws
